import Mathlib

/-!
Verification of the RustCall.jl binding-generator transformation engine
(`lastcall_macros`) and the ownership-primitive helpers (`rust_helpers`).

The Rust source is shallowly embedded: `syn` types relevant to the macro
are modelled as Lean inductives, each `transform_*` / `generate_*`
function of `src/deps/lastcall_macros/src/lib.rs` becomes a Lean function
on those inductives returning a description of the emitted items, and the
runtime behaviour of the emitted wrapper templates (flag-byte records,
deallocation, accessors, growable-array element access from
`src/deps/rust_helpers/src/lib.rs`) is modelled by explicit state
passing.  Rust `f64` values are modelled as `ℚ` (every computation the
theorems touch is exact in IEEE-754 double precision), `i32`/`i64`/`u8`
values as `Int`/`Nat`; `std::mem::zeroed()` of a numeric type is its
numeric zero.
-/

/-- Shallow model of the fragment of `syn::Type` the macro inspects:
a path type keeps the identifier of its last segment together with the
angle-bracketed type arguments of that segment; tuples, raw pointers and
references are kept structurally; everything else the macro never looks
into is `other`. -/
inductive RustType where
  | path (name : String) (args : List RustType)
  | tuple (elems : List RustType)
  | ptr (inner : RustType)
  | reference (inner : RustType)
  | other


/-- The primitive identifiers accepted by `is_ffi_compatible_type`
(`lastcall_macros/src/lib.rs:78-95`). -/
def ffiPrimitiveNames : List String :=
  ["i8", "i16", "i32", "i64", "i128", "u8", "u16", "u32", "u64", "u128",
   "f32", "f64", "bool", "char", "usize", "isize"]

/-- Model of `is_ffi_compatible_type` (`lastcall_macros/src/lib.rs:73-104`):
a path type is accepted iff its last segment is one of the primitive
names, the empty tuple `()` and raw pointers are accepted, everything
else is rejected. -/
def is_ffi_compatible_type : RustType → Bool
  | .path name _ => ffiPrimitiveNames.contains name
  | .tuple elems => elems.isEmpty
  | .ptr _ => true
  | _ => false

/-- Model of `needs_clone_for_getter` (`lastcall_macros/src/lib.rs:107-119`):
`String` and `Vec` fields get a duplicating getter. -/
def needs_clone_for_getter : RustType → Bool
  | .path name _ => name = "String" || name = "Vec"
  | _ => false

/-- Model of `extract_result_type` (`lastcall_macros/src/lib.rs:133-156`):
recognizes `Result<T, E>` by the last path segment and takes the first
two generic type arguments. -/
def extract_result_type : RustType → Option (RustType × RustType)
  | .path name args =>
    if name = "Result" then
      match args with
      | okTy :: errTy :: _ => some (okTy, errTy)
      | _ => none
    else none
  | _ => none

/-- Model of `extract_option_type` (`lastcall_macros/src/lib.rs:159-177`):
recognizes `Option<T>` by the last path segment and takes the first
generic type argument. -/
def extract_option_type : RustType → Option RustType
  | .path name args => if name = "Option" then args.head? else none
  | _ => none

/-- Model of `syn::ItemFn` as far as `transform_function` inspects it:
name, the `unsafe` effect marker, the typed inputs (pattern name and
type) and the declared return type (`none` models `ReturnType::Default`). -/
structure ItemFn where
  name : String
  unsafety : Bool
  inputs : List (String × RustType)
  output : Option RustType


/-- Shape of the items `transform_function` emits for one input function:
either the `compile_error!` diagnostic alone, a pass-through
`extern "C"` export of the unchanged signature, or a flag-byte record
type plus hidden inner function plus wrapper (for `Result` / `Option`
returns). -/
inductive FnEmission where
  | errorOnly (msg : String)
  | simple (name : String)
  | resultWrapper (recordName innerName wrapperName : String) (okTy errTy : RustType)
  | optionWrapper (recordName innerName wrapperName : String) (innerTy : RustType)


/-- The diagnostic text of `transform_function` for `unsafe` inputs
(`lastcall_macros/src/lib.rs:266`). -/
def safetyErrorMsg : String :=
  "#[julia] cannot be applied to unsafe functions directly. The function will be made extern \"C\" which has its own safety semantics."

/-- Model of `transform_function` (`lastcall_macros/src/lib.rs:262-282`)
together with the emission shapes of `transform_simple_function`,
`transform_result_function` (lines 298-351) and
`transform_option_function` (lines 354-404): an `unsafe` input yields
only the diagnostic; a `Result<T, E>` return yields the
`CResult_<name>` record, the `<name>_inner` hidden function and the
wrapper; an `Option<T>` return yields the `COption_<name>` analogue;
everything else is exported pass-through under its own name. -/
def transform_function (f : ItemFn) : FnEmission :=
  if f.unsafety then
    .errorOnly safetyErrorMsg
  else
    match f.output with
    | some ret =>
      match extract_result_type ret with
      | some (okTy, errTy) =>
          .resultWrapper ("CResult_" ++ f.name) (f.name ++ "_inner") f.name okTy errTy
      | none =>
        match extract_option_type ret with
        | some innerTy =>
            .optionWrapper ("COption_" ++ f.name) (f.name ++ "_inner") f.name innerTy
        | none => .simple f.name
    | none => .simple f.name

/-- Output shape of `transform_function_julia_pyo3`: the item emitted
under `cfg(not(feature = "python"))` (the Julia path) and whether a
`pyfunction` with the original signature is emitted under
`cfg(feature = "python")`. -/
structure DualFnEmission where
  juliaWrapper : FnEmission
  pythonNative : Bool


/-- Model of `transform_function_julia_pyo3`
(`lastcall_macros/src/lib.rs:752-790`).  The function dispatches on
whether the return type is `Result`/`Option`, but both branches emit the
same items: the original signature re-exported as
`#[no_mangle] pub extern "C"` on the Julia path (no flag-byte record, no
inner function, and no check of `unsafety`), and a `pyo3::pyfunction`
with the original signature on the Python path. -/
def transform_function_julia_pyo3 (f : ItemFn) : DualFnEmission :=
  match f.output with
  | some ret =>
    if (extract_result_type ret).isSome || (extract_option_type ret).isSome then
      { juliaWrapper := .simple f.name, pythonNative := true }
    else
      { juliaWrapper := .simple f.name, pythonNative := true }
  | none => { juliaWrapper := .simple f.name, pythonNative := true }

/-- Model of a method inside an `impl` block (`syn::ImplItemFn`) as far
as the macro inspects it: name, whether it carries an inner `#[julia]`
marker attribute, its receiver (`none` models no receiver, `some false`
models a shared borrow receiver, `some true` an exclusive borrow
receiver), the typed non-receiver arguments and the declared return
type. -/
structure ImplMethod where
  name : String
  hasJuliaAttr : Bool
  receiver : Option Bool
  args : List (String × RustType)
  output : Option RustType

/-- Model of `is_self_type` (`lastcall_macros/src/lib.rs:662-673`):
a path type whose last segment is `Self` or the owner name. -/
def is_self_type (ty : RustType) (structName : String) : Bool :=
  match ty with
  | .path name _ => name = "Self" || name = structName
  | _ => false

/-- Shorthand for the pattern
`matches!(&method.sig.output, ReturnType::Type(_, ty) if is_self_type(ty, struct_name))`
used by both wrapper generators. -/
def returns_self_type (m : ImplMethod) (structName : String) : Bool :=
  match m.output with
  | some ty => is_self_type ty structName
  | none => false

/-- Classification a method wrapper falls into: the three emission
branches of `generate_method_wrapper` / `generate_method_wrapper_pyo3`. -/
inductive MethodKind where
  | constructor
  | staticFunction
  | instanceMethod

/-- Description of one emitted method wrapper: its exported symbol name,
whether its argument list starts with an instance pointer (and whether
that pointer is `*mut` rather than `*const`), whether the wrapper
heap-boxes its result and returns an owning `*mut Owner` pointer, and
which emission branch produced it. -/
structure MethodWrapper where
  name : String
  takesInstancePtr : Bool
  ptrMutable : Bool
  boxesResult : Bool
  kind : MethodKind

/-- Model of `generate_method_wrapper` (`lastcall_macros/src/lib.rs:528-659`,
the `#[julia]` path).  `is_static` is the absence of a receiver among the
inputs; `is_constructor` is `name == "new" || returns Self/owner` — with
no `is_static` requirement.  The receiver, when present, contributes a
`ptr` argument to the wrapper regardless of the branch taken.  The
constructor branch boxes the result; the static and instance branches
box exactly when the declared return type is `Self`/the owner. -/
def generate_method_wrapper (structName : String) (m : ImplMethod) : MethodWrapper :=
  let isStatic := m.receiver.isNone
  let isConstructor := m.name = "new" || returns_self_type m structName
  let kind : MethodKind :=
    if isConstructor then .constructor
    else if isStatic then .staticFunction
    else .instanceMethod
  let boxes :=
    if isConstructor then true
    else returns_self_type m structName
  { name := structName ++ "_" ++ m.name
    takesInstancePtr := m.receiver.isSome
    ptrMutable := m.receiver = some true
    boxesResult := boxes
    kind := kind }

/-- Model of `generate_method_wrapper_pyo3`
(`lastcall_macros/src/lib.rs:959-1075`, the `#[julia_pyo3]` path).  Here
`is_constructor` additionally requires `is_static` (lines 971-977); a
non-constructor static method is never boxed, and an instance method is
boxed exactly when it returns `Self`/the owner (lines 1052-1062). -/
def generate_method_wrapper_pyo3 (structName : String) (m : ImplMethod) : MethodWrapper :=
  let isStatic := m.receiver.isNone
  let isConstructor :=
    isStatic && (m.name = "new" || returns_self_type m structName)
  let kind : MethodKind :=
    if isConstructor then .constructor
    else if isStatic then .staticFunction
    else .instanceMethod
  let boxes :=
    if isConstructor then true
    else if isStatic then false
    else returns_self_type m structName
  { name := structName ++ "_" ++ m.name
    takesInstancePtr := m.receiver.isSome
    ptrMutable := m.receiver = some true
    boxesResult := boxes
    kind := kind }

/-- Model of `syn::ItemImpl` as far as the macro inspects it: the self
type and the function items of the block. -/
structure ItemImpl where
  selfTy : RustType
  methods : List ImplMethod

/-- Shape of the items an impl-block transformation emits: the
`compile_error!` diagnostic alone, or a list of method wrappers
(alongside the re-emitted impl block itself). -/
inductive ImplEmission where
  | errorOnly (msg : String)
  | wrappers (ws : List MethodWrapper)

/-- Model of `transform_impl` (`lastcall_macros/src/lib.rs:480-525`):
the owner name is the last segment of a path self type (any other self
type yields only the diagnostic); a wrapper is generated exactly for the
methods carrying the inner `#[julia]` marker attribute, in order. -/
def transform_impl (ib : ItemImpl) : ImplEmission :=
  match ib.selfTy with
  | .path structName _ =>
      .wrappers ((ib.methods.filter (fun m => m.hasJuliaAttr)).map
        (fun m => generate_method_wrapper structName m))
  | _ => .errorOnly "#[julia] on impl block requires a simple type path"

/-- Model of `transform_impl_julia_pyo3`
(`lastcall_macros/src/lib.rs:867-919`): same owner-name extraction, but
a Julia FFI wrapper is generated for every function item of the block,
with no attribute filter. -/
def transform_impl_julia_pyo3 (ib : ItemImpl) : ImplEmission :=
  match ib.selfTy with
  | .path structName _ =>
      .wrappers (ib.methods.map (fun m => generate_method_wrapper_pyo3 structName m))
  | _ => .errorOnly "#[julia_pyo3] on impl block requires a simple type path"

/-- Model of `syn::ItemStruct` with named fields. -/
structure ItemStruct where
  name : String
  fields : List (String × RustType)

/-- Accessor pair emitted for one accepted field of a struct. -/
structure FieldAccessor where
  fieldName : String
  getterName : String
  setterName : String
  getterClones : Bool

/-- Items `transform_struct` emits for a struct: the struct is re-emitted
with `#[repr(C)]` (declaration-order C layout), one `<Name>_free`
deallocation wrapper, and getter/setter pairs for the accepted fields. -/
structure StructEmission where
  reprC : Bool
  freeName : String
  accessors : List FieldAccessor

/-- Model of `transform_struct` (`lastcall_macros/src/lib.rs:407-477`):
adds `#[repr(C)]`, emits `<Name>_free`, and for each named field whose
type satisfies `is_ffi_compatible_type` or `needs_clone_for_getter`, a
getter `<Name>_get_<field>` (cloning for `String`/`Vec`) and a setter
`<Name>_set_<field>`.  Fields of any other type are silently skipped. -/
def transform_struct (s : ItemStruct) : StructEmission :=
  { reprC := true
    freeName := s.name ++ "_free"
    accessors :=
      (s.fields.filter (fun fld =>
        is_ffi_compatible_type fld.2 || needs_clone_for_getter fld.2)).map
        (fun fld =>
          { fieldName := fld.1
            getterName := s.name ++ "_get_" ++ fld.1
            setterName := s.name ++ "_set_" ++ fld.1
            getterClones := needs_clone_for_getter fld.2 }) }

/-- Model of the Rust `Result<T, E>` value the hidden inner function
returns. -/
inductive RustResult (α ε : Type) where
  | ok (value : α)
  | err (e : ε)

/-- Model of the emitted `#[repr(C)] struct CResult_<name>` record
(`lastcall_macros/src/lib.rs:180-191`): flag byte, success slot, failure
slot, in declaration order.  The `u8` flag is modelled as `Nat`. -/
structure CResultValue (α ε : Type) where
  is_ok : Nat
  ok_value : α
  err_value : ε

/-- Runtime behaviour of the wrapper emitted by
`transform_result_function` (`lastcall_macros/src/lib.rs:336-349`):
`Ok(value)` fills flag `1`, the value, and `std::mem::zeroed()` in the
failure slot; `Err(err)` fills flag `0`, `std::mem::zeroed()` in the
success slot, and the error.  The all-zero bit pattern of each slot type
is passed in explicitly (it is the numeric zero for the numeric types in
scope). -/
def result_wrapper_body {α ε : Type} (zeroOk : α) (zeroErr : ε)
    (r : RustResult α ε) : CResultValue α ε :=
  match r with
  | .ok value => { is_ok := 1, ok_value := value, err_value := zeroErr }
  | .err e => { is_ok := 0, ok_value := zeroOk, err_value := e }

/-- Model of the emitted `#[repr(C)] struct COption_<name>` record
(`lastcall_macros/src/lib.rs:194-204`): flag byte and payload slot. -/
structure COptionValue (α : Type) where
  is_some : Nat
  value : α

/-- Runtime behaviour of the wrapper emitted by
`transform_option_function` (`lastcall_macros/src/lib.rs:391-402`):
`Some(value)` fills flag `1` and the value; `None` fills flag `0` and
`std::mem::zeroed()` in the payload slot. -/
def option_wrapper_body {α : Type} (zeroVal : α) (o : Option α) :
    COptionValue α :=
  match o with
  | some value => { is_some := 1, value := value }
  | none => { is_some := 0, value := zeroVal }

/-- Model of `safe_divide` from `examples/sample_crate/src/lib.rs:69-76`
(the renamed hidden inner function): `Err(-1)` on a zero divisor,
`Ok(a / b)` otherwise.  `f64` is modelled as `ℚ`; at the inputs the
theorems evaluate, IEEE-754 double arithmetic is exact and agrees. -/
def safe_divide_inner (a b : ℚ) : RustResult ℚ Int :=
  if b = 0 then .err (-1) else .ok (a / b)

/-- The emitted `safe_divide` wrapper: the inner body routed through the
`CResult` construction with zero-filled inactive slots. -/
def safe_divide (a b : ℚ) : CResultValue ℚ Int :=
  result_wrapper_body 0 0 (safe_divide_inner a b)

/-- Model of `safe_sqrt` from `examples/sample_crate/src/lib.rs:93-100`
(the hidden inner function): `None` for a negative input, `Some(n.sqrt())`
otherwise.  The IEEE-754 square-root primitive is abstracted as a
parameter `fsqrt` (on the inputs the theorems evaluate it is exact). -/
def safe_sqrt_inner (fsqrt : ℚ → ℚ) (n : ℚ) : Option ℚ :=
  if n < 0 then none else some (fsqrt n)

/-- The emitted `safe_sqrt` wrapper: the inner body routed through the
`COption` construction with a zero-filled payload slot in the absent
case. -/
def safe_sqrt (fsqrt : ℚ → ℚ) (n : ℚ) : COptionValue ℚ :=
  option_wrapper_body 0 (safe_sqrt_inner fsqrt n)

/-- Heap of boxed instances: address `0` models the null pointer, a live
allocation at address `p` holds a value of type `V`. -/
def Heap (V : Type) : Type := Nat → Option V

/-- Runtime behaviour of the emitted `<Name>_free` wrapper
(`lastcall_macros/src/lib.rs:423-430`): a null pointer is left alone
(no dereference, no release); otherwise `Box::from_raw(ptr)` is dropped,
removing exactly that allocation from the heap. -/
def struct_free {V : Type} (h : Heap V) (p : Nat) : Heap V :=
  if p = 0 then h else fun q => if q = p then none else h q

/-- Clone as observed across the FFI boundary: the duplicated value is
equal to the original (`String::clone` / `Vec::clone` duplicate the heap
data but preserve the value). -/
def clone_value {V : Type} (v : V) : V := v

/-- Runtime behaviour of the emitted setter
(`lastcall_macros/src/lib.rs:461-466`): `(*ptr).field = value` overwrites
the named field of the instance at `p` in place; the claims only concern
valid instance pointers, so an unallocated address is left unchanged. -/
def struct_setter {V : Type} (h : Heap (String → V)) (p : Nat)
    (fld : String) (v : V) : Heap (String → V) :=
  fun q =>
    if q = p then
      match h q with
      | some inst => some (fun f => if f = fld then v else inst f)
      | none => none
    else h q

/-- Runtime behaviour of the emitted getter
(`lastcall_macros/src/lib.rs:443-457`): reads `(*ptr).field`, cloning it
first when the field type required a duplicating getter. -/
def struct_getter {V : Type} (cloned : Bool) (h : Heap (String → V))
    (p : Nat) (fld : String) : Option V :=
  match h p with
  | some inst => some (if cloned then clone_value (inst fld) else inst fld)
  | none => none

/-- Model of the `CVec` handoff record of
`rust_helpers/src/lib.rs:239-244` together with the memory it points at:
`ptr = 0` models a null `ptr` field; `elems` is the content of the slice
`from_raw_parts(ptr, len)`, so `elems.length` is the record's `len`
field; `cap` is carried unchanged. -/
structure CVec (α : Type) where
  ptr : Nat
  elems : List α
  cap : Nat

/-- Model of `rust_vec_get_i32` (`rust_helpers/src/lib.rs:391-400`):
null pointer or out-of-bounds index yields `0`, otherwise the element at
`index` of the slice. -/
def rust_vec_get_i32 (vec : CVec Int) (index : Nat) : Int :=
  if vec.ptr = 0 ∨ vec.elems.length ≤ index then 0
  else vec.elems.getD index 0

/-- Model of `rust_vec_get_i64` (`rust_helpers/src/lib.rs:402-410`). -/
def rust_vec_get_i64 (vec : CVec Int) (index : Nat) : Int :=
  if vec.ptr = 0 ∨ vec.elems.length ≤ index then 0
  else vec.elems.getD index 0

/-- Model of `rust_vec_get_f32` (`rust_helpers/src/lib.rs:412-420`);
the float element type is modelled as `ℚ`. -/
def rust_vec_get_f32 (vec : CVec ℚ) (index : Nat) : ℚ :=
  if vec.ptr = 0 ∨ vec.elems.length ≤ index then 0
  else vec.elems.getD index 0

/-- Model of `rust_vec_get_f64` (`rust_helpers/src/lib.rs:422-430`). -/
def rust_vec_get_f64 (vec : CVec ℚ) (index : Nat) : ℚ :=
  if vec.ptr = 0 ∨ vec.elems.length ≤ index then 0
  else vec.elems.getD index 0

/-- Model of `rust_vec_set_i32` (`rust_helpers/src/lib.rs:432-442`):
returns the success flag together with the post-state of the slice
contents; a null pointer or out-of-bounds index returns `false` and
leaves the memory untouched, otherwise the element at `index` is
overwritten and `true` is returned. -/
def rust_vec_set_i32 (vec : CVec Int) (index : Nat) (value : Int) :
    Bool × CVec Int :=
  if vec.ptr = 0 ∨ vec.elems.length ≤ index then (false, vec)
  else (true, { vec with elems := vec.elems.set index value })

/-- Model of `rust_vec_set_i64` (`rust_helpers/src/lib.rs:444-453`). -/
def rust_vec_set_i64 (vec : CVec Int) (index : Nat) (value : Int) :
    Bool × CVec Int :=
  if vec.ptr = 0 ∨ vec.elems.length ≤ index then (false, vec)
  else (true, { vec with elems := vec.elems.set index value })

/-- Model of `rust_vec_set_f32` (`rust_helpers/src/lib.rs:455-464`). -/
def rust_vec_set_f32 (vec : CVec ℚ) (index : Nat) (value : ℚ) :
    Bool × CVec ℚ :=
  if vec.ptr = 0 ∨ vec.elems.length ≤ index then (false, vec)
  else (true, { vec with elems := vec.elems.set index value })

/-- Model of `rust_vec_set_f64` (`rust_helpers/src/lib.rs:466-475`). -/
def rust_vec_set_f64 (vec : CVec ℚ) (index : Nat) (value : ℚ) :
    Bool × CVec ℚ :=
  if vec.ptr = 0 ∨ vec.elems.length ≤ index then (false, vec)
  else (true, { vec with elems := vec.elems.set index value })

/-- Concrete method used by the C1 analysis: a method literally named
`new` that takes a shared borrow receiver and returns `f64` — its
receiver-kind is not `None`, so per the specification it must never be
classified `Constructor`. -/
def probe_new_with_receiver : ImplMethod :=
  { name := "new", hasJuliaAttr := true, receiver := some false,
    args := [], output := some (.path "f64" []) }

/-- The `bad_result` declaration of the repository's compile-fail test
`juliacall_macros/tests/ui/non_ffi_result.rs`:
`fn bad_result(a: i32) -> Result<String, i32>` — an ErrorShape return
whose success payload is a text buffer. -/
def bad_result_item : ItemFn :=
  { name := "bad_result", unsafety := false,
    inputs := [("a", .path "i32" [])],
    output := some (.path "Result" [.path "String" [], .path "i32" []]) }

/-- The `safe_divide` declaration of `examples/sample_crate/src/lib.rs:69-76`:
`fn safe_divide(a: f64, b: f64) -> Result<f64, i32>`. -/
def safe_divide_item : ItemFn :=
  { name := "safe_divide", unsafety := false,
    inputs := [("a", .path "f64" []), ("b", .path "f64" [])],
    output := some (.path "Result" [.path "f64" [], .path "i32" []]) }

/-- A function declaration carrying the `unsafe` effect:
`unsafe fn uadd(a: i32, b: i32) -> i32`. -/
def uadd_item : ItemFn :=
  { name := "uadd", unsafety := true,
    inputs := [("a", .path "i32" []), ("b", .path "i32" [])],
    output := some (.path "i32" []) }

/-- An impl block on `Counter` whose single method does not carry the
inner `#[julia]` marker attribute. -/
def probe_impl : ItemImpl :=
  { selfTy := .path "Counter" []
    methods := [{ name := "probe", hasJuliaAttr := false, receiver := some false,
                  args := [], output := some (.path "i32" []) }] }

/-- An impl block on `Counter` with one marked and one unmarked method,
used to instantiate the wrapper-naming theorem. -/
def counter_impl : ItemImpl :=
  { selfTy := .path "Counter" []
    methods :=
      [{ name := "increment", hasJuliaAttr := true, receiver := some true,
         args := [], output := none },
       { name := "helper", hasJuliaAttr := false, receiver := some false,
         args := [], output := some (.path "i32" []) }] }

/-- The `Point` struct of `examples/sample_crate/src/lib.rs:119-123`:
two `f64` fields `x` and `y`. -/
def point_struct : ItemStruct :=
  { name := "Point", fields := [("x", .path "f64" []), ("y", .path "f64" [])] }

/-- Claim C1, evaluation of the code at the failing input: the method
`new(&self) -> f64` has a borrow receiver, yet `generate_method_wrapper`
(the `#[julia]` impl path) classifies it `Constructor` and emits a
heap-allocating wrapper returning an owning pointer, while
`generate_method_wrapper_pyo3` (which additionally requires a
receiver-less method, as the specification demands) classifies the same
method `InstanceMethod` with no allocation. -/
theorem receiver_new_classified_constructor :
    probe_new_with_receiver.receiver.isSome = true ∧
    (generate_method_wrapper "Point" probe_new_with_receiver).kind =
      MethodKind.constructor ∧
    (generate_method_wrapper "Point" probe_new_with_receiver).boxesResult = true ∧
    (generate_method_wrapper_pyo3 "Point" probe_new_with_receiver).kind =
      MethodKind.instanceMethod ∧
    (generate_method_wrapper_pyo3 "Point" probe_new_with_receiver).boxesResult =
      false :=
  ⟨rfl, rfl, rfl, rfl, rfl⟩

/-- Claim C2, evaluation of the code at the failing input: the success
payload `String` of `bad_result`'s ErrorShape return is not
FFI-compatible, yet `transform_function` emits the full wrapper record
`CResult_bad_result` (with a `String` success slot) and no diagnostic. -/
theorem nonprimitive_result_payload_gets_wrapper :
    is_ffi_compatible_type (RustType.path "String" []) = false ∧
    transform_function bad_result_item =
      FnEmission.resultWrapper "CResult_bad_result" "bad_result_inner"
        "bad_result" (.path "String" []) (.path "i32" []) :=
  ⟨rfl, rfl⟩

/-- Claim C3: the emitted ErrorShape wrapper record is fully initialized
on both paths — on success the flag byte is 1, the success slot holds
the computed value and the failure slot is the zero pattern; on failure
the flag byte is 0, the success slot is the zero pattern and the failure
slot holds the error — and concretely `divide(10, 2)` gives
`(1, 5, 0)` while `divide(10, 0)` gives `(0, 0, -1)`. -/
theorem result_wrapper_fully_initialized :
    (∀ (α ε : Type) (zOk : α) (zErr : ε) (v : α) (e : ε),
      result_wrapper_body zOk zErr (RustResult.ok v) =
        { is_ok := 1, ok_value := v, err_value := zErr } ∧
      result_wrapper_body zOk zErr (RustResult.err e) =
        { is_ok := 0, ok_value := zOk, err_value := e }) ∧
    safe_divide 10 2 = { is_ok := 1, ok_value := 5, err_value := 0 } ∧
    safe_divide 10 0 = { is_ok := 0, ok_value := 0, err_value := -1 } := by
  refine ⟨fun α ε zOk zErr v e => ⟨rfl, rfl⟩, ?_, ?_⟩ <;>
    norm_num [safe_divide, safe_divide_inner, result_wrapper_body]

/-- Claim C4: the emitted OptionalShape wrapper record is a single-slot
record — a present result sets the flag byte to 1 and the payload slot
to the computed value, an absent result sets the flag byte to 0 and the
payload slot to the zero pattern — and concretely, with the IEEE-754
square root giving 2 at 4, `safe_sqrt(4)` gives `(1, 2)` and
`safe_sqrt(-1)` gives `(0, 0)`. -/
theorem option_wrapper_fully_initialized (fsqrt : ℚ → ℚ) (h4 : fsqrt 4 = 2) :
    (∀ (α : Type) (z v : α),
      option_wrapper_body z (some v) = { is_some := 1, value := v } ∧
      option_wrapper_body z none = { is_some := 0, value := z }) ∧
    safe_sqrt fsqrt 4 = { is_some := 1, value := 2 } ∧
    safe_sqrt fsqrt (-1) = { is_some := 0, value := 0 } := by
  refine ⟨fun α z v => ⟨rfl, rfl⟩, ?_, ?_⟩ <;>
    norm_num [safe_sqrt, safe_sqrt_inner, option_wrapper_body, h4]

/-- Witness for claim C4 at the concrete square-root primitive. -/
theorem option_wrapper_fully_initialized_witness :
    safe_sqrt (fun _ => 2) 4 = { is_some := 1, value := 2 } ∧
    safe_sqrt (fun _ => 2) (-1) = { is_some := 0, value := 0 } :=
  (option_wrapper_fully_initialized (fun _ => 2) rfl).2

/-- Claim C5, evaluation of the code at the failing input: for the
ErrorShape-returning `safe_divide`, single-target `transform_function`
emits the flag-byte record form, but the non-python path of
`transform_function_julia_pyo3` emits only the pass-through export of
the unchanged signature — not the same C-ABI wrapper form. -/
theorem dual_target_result_not_wrapped :
    transform_function safe_divide_item =
      FnEmission.resultWrapper "CResult_safe_divide" "safe_divide_inner"
        "safe_divide" (.path "f64" []) (.path "i32" []) ∧
    (transform_function_julia_pyo3 safe_divide_item).juliaWrapper =
      FnEmission.simple "safe_divide" ∧
    (transform_function_julia_pyo3 safe_divide_item).juliaWrapper ≠
      transform_function safe_divide_item := by
  refine ⟨rfl, rfl, fun h => ?_⟩
  exact FnEmission.noConfusion h

/-- Counterexample to claim C6 as stated: `probe_impl` is a method
collection holding one method, yet `transform_impl` emits no wrapper for
it (the method does not carry the inner `#[julia]` marker attribute), so
not every method of the collection yields a wrapper. -/
theorem unmarked_method_yields_no_wrapper :
    probe_impl.methods.length = 1 ∧
    transform_impl probe_impl = ImplEmission.wrappers [] :=
  ⟨rfl, rfl⟩

/-- Claim C6 as amended: for an impl block on a simple type path, the
`#[julia]` transformation emits exactly one wrapper per method carrying
the inner `#[julia]` marker attribute, and the `#[julia_pyo3]`
transformation exactly one wrapper per method of the block, each named
`Owner_method`. -/
theorem impl_wrappers_follow_marker_and_naming (ib : ItemImpl) (owner : String)
    (targs : List RustType) (hself : ib.selfTy = .path owner targs) :
    ∃ ws pws,
      transform_impl ib = ImplEmission.wrappers ws ∧
      ws.map MethodWrapper.name =
        (ib.methods.filter (fun m => m.hasJuliaAttr)).map
          (fun m => owner ++ "_" ++ m.name) ∧
      transform_impl_julia_pyo3 ib = ImplEmission.wrappers pws ∧
      pws.map MethodWrapper.name =
        ib.methods.map (fun m => owner ++ "_" ++ m.name) := by
  rcases ib with ⟨sty, ms⟩
  cases hself
  refine ⟨_, _, rfl, ?_, rfl, ?_⟩ <;> simp only [List.map_map] <;> rfl

/-- Witness for the amended claim C6 at a concrete impl block with one
marked and one unmarked method. -/
theorem impl_wrappers_follow_marker_and_naming_witness :
    ∃ ws pws,
      transform_impl counter_impl = ImplEmission.wrappers ws ∧
      ws.map MethodWrapper.name = ["Counter_increment"] ∧
      transform_impl_julia_pyo3 counter_impl = ImplEmission.wrappers pws ∧
      pws.map MethodWrapper.name = ["Counter_increment", "Counter_helper"] :=
  impl_wrappers_follow_marker_and_naming counter_impl "Counter" [] rfl

/-- Counterexample to claim C7 as stated: `uadd_item` carries the unsafe
effect, yet `transform_function_julia_pyo3` emits a pass-through
exported wrapper for it instead of a SafetyError diagnostic. -/
theorem dual_macro_skips_safety_check :
    uadd_item.unsafety = true ∧
    (transform_function_julia_pyo3 uadd_item).juliaWrapper =
      FnEmission.simple "uadd" :=
  ⟨rfl, rfl⟩

/-- Claim C7 as amended: the single-target `transform_function` emits the
SafetyError diagnostic and nothing else for a declaration carrying the
unsafe effect, while `transform_function_julia_pyo3` performs no such
check and re-exports the declaration pass-through. -/
theorem single_target_rejects_effectful_fn (f : ItemFn)
    (hu : f.unsafety = true) :
    transform_function f = FnEmission.errorOnly safetyErrorMsg ∧
    (transform_function_julia_pyo3 f).juliaWrapper = FnEmission.simple f.name := by
  constructor
  · simp [transform_function, hu]
  · rcases f with ⟨name, u, ins, out⟩
    rcases out with _ | ret
    · rfl
    · simp only [transform_function_julia_pyo3]
      split <;> rfl

/-- Witness for the amended claim C7 at the concrete unsafe declaration. -/
theorem single_target_rejects_effectful_fn_witness :
    transform_function uadd_item = FnEmission.errorOnly safetyErrorMsg ∧
    (transform_function_julia_pyo3 uadd_item).juliaWrapper =
      FnEmission.simple "uadd" :=
  single_target_rejects_effectful_fn uadd_item rfl

/-- Claim C8: the emitted deallocation wrapper (named `<Name>_free`) is a
no-op on the null pointer — the heap is unchanged, nothing is
dereferenced or released — and on a non-null pointer it releases exactly
that allocation, leaving every other address untouched. -/
theorem free_null_noop_nonnull_releases {V : Type} (h : Heap V) (p : Nat)
    (hp : p ≠ 0) (s : ItemStruct) :
    (transform_struct s).freeName = s.name ++ "_free" ∧
    struct_free h 0 = h ∧
    struct_free h p p = none ∧
    ∀ q, q ≠ p → struct_free h p q = h q := by
  refine ⟨rfl, rfl, ?_, fun q hq => ?_⟩
  · simp [struct_free, hp]
  · simp [struct_free, hp, hq]

/-- Witness for claim C8 at a concrete one-allocation heap. -/
theorem free_null_noop_nonnull_releases_witness :
    struct_free (fun q => if q = 5 then some (1 : Int) else none) 0 =
      (fun q => if q = 5 then some (1 : Int) else none) ∧
    struct_free (fun q => if q = 5 then some (1 : Int) else none) 5 5 = none ∧
    struct_free (fun q => if q = 5 then some (1 : Int) else none) 5 3 = none := by
  have H := free_null_noop_nonnull_releases
    (fun q => if q = 5 then some (1 : Int) else none) 5 (by decide) point_struct
  exact ⟨H.2.1, H.2.2.1, H.2.2.2 3 (by decide)⟩

/-- Claim C9: for every struct field of an accepted type,
`transform_struct` emits the getter/setter pair under the
`Name_get_field` / `Name_set_field` naming, and on every valid instance
pointer the emitted setter followed by the emitted getter returns the
just-set value. -/
theorem setter_getter_roundtrip (s : ItemStruct) (fname : String)
    (fty : RustType) (hmem : (fname, fty) ∈ s.fields)
    (hacc : (is_ffi_compatible_type fty || needs_clone_for_getter fty) = true) :
    (∃ a ∈ (transform_struct s).accessors,
      a.fieldName = fname ∧
      a.getterName = s.name ++ "_get_" ++ fname ∧
      a.setterName = s.name ++ "_set_" ++ fname) ∧
    ∀ (V : Type) (h : Heap (String → V)) (p : Nat) (inst : String → V)
      (v : V) (b : Bool), h p = some inst →
      struct_getter b (struct_setter h p fname v) p fname = some v := by
  constructor
  · exact ⟨_, List.mem_map_of_mem _ (List.mem_filter.mpr ⟨hmem, hacc⟩),
      rfl, rfl, rfl⟩
  · intro V h p inst v b hp
    simp [struct_getter, struct_setter, clone_value, hp]

/-- Witness for claim C9 at the `Point.x` field and a concrete
one-instance heap. -/
theorem setter_getter_roundtrip_witness :
    (∃ a ∈ (transform_struct point_struct).accessors,
      a.fieldName = "x" ∧
      a.getterName = "Point_get_x" ∧
      a.setterName = "Point_set_x") ∧
    struct_getter false
      (struct_setter (fun q => if q = 1 then some (fun _ => (0 : Int)) else none)
        1 "x" 7) 1 "x" = some 7 := by
  have H := setter_getter_roundtrip point_struct "x" (.path "f64" [])
    (by simp [point_struct]) rfl
  exact ⟨H.1, H.2 Int _ 1 (fun _ => 0) 7 false (by simp)⟩

/-- Claim C10: the growable-array element accessors are total and
bounds-guarded — on a null pointer or an out-of-bounds index the getters
return the zero of the element kind and the setters return `false`
leaving every element unchanged; on a non-null pointer and in-bounds
index the setters return `true` and write the value at that index. -/
theorem vec_accessors_bounds_guarded (vi : CVec Int) (vq : CVec ℚ) (i : Nat)
    (n : Int) (q : ℚ) :
    (vi.ptr = 0 ∨ vi.elems.length ≤ i →
      rust_vec_get_i32 vi i = 0 ∧ rust_vec_get_i64 vi i = 0 ∧
      rust_vec_set_i32 vi i n = (false, vi) ∧
      rust_vec_set_i64 vi i n = (false, vi)) ∧
    (vq.ptr = 0 ∨ vq.elems.length ≤ i →
      rust_vec_get_f32 vq i = 0 ∧ rust_vec_get_f64 vq i = 0 ∧
      rust_vec_set_f32 vq i q = (false, vq) ∧
      rust_vec_set_f64 vq i q = (false, vq)) ∧
    (vi.ptr ≠ 0 → i < vi.elems.length →
      rust_vec_set_i32 vi i n = (true, { vi with elems := vi.elems.set i n }) ∧
      rust_vec_set_i64 vi i n = (true, { vi with elems := vi.elems.set i n })) ∧
    (vq.ptr ≠ 0 → i < vq.elems.length →
      rust_vec_set_f32 vq i q = (true, { vq with elems := vq.elems.set i q }) ∧
      rust_vec_set_f64 vq i q = (true, { vq with elems := vq.elems.set i q })) := by
  refine ⟨fun hg => ?_, fun hg => ?_, fun h1 h2 => ?_, fun h1 h2 => ?_⟩
  · simp [rust_vec_get_i32, rust_vec_get_i64, rust_vec_set_i32,
      rust_vec_set_i64, hg]
  · simp [rust_vec_get_f32, rust_vec_get_f64, rust_vec_set_f32,
      rust_vec_set_f64, hg]
  · simp [rust_vec_set_i32, rust_vec_set_i64, h1, not_le.mpr h2]
  · simp [rust_vec_set_f32, rust_vec_set_f64, h1, not_le.mpr h2]

/-- Witness for claim C10 at concrete vectors: a null handoff record is
read as zero and refuses writes, a valid one accepts an in-bounds
write. -/
theorem vec_accessors_bounds_guarded_witness :
    rust_vec_get_i32 { ptr := 0, elems := [4], cap := 1 } 0 = 0 ∧
    rust_vec_set_i32 { ptr := 0, elems := [4], cap := 1 } 0 9 =
      (false, { ptr := 0, elems := [4], cap := 1 }) ∧
    rust_vec_set_f64 { ptr := 2, elems := [3, 8], cap := 2 } 1 7 =
      (true, { ptr := 2, elems := [3, 7], cap := 2 }) := by
  have Hi := vec_accessors_bounds_guarded { ptr := 0, elems := [4], cap := 1 }
    { ptr := 2, elems := [(3 : ℚ), 8], cap := 2 } 0 9 7
  have Hq := vec_accessors_bounds_guarded { ptr := 0, elems := [4], cap := 1 }
    { ptr := 2, elems := [(3 : ℚ), 8], cap := 2 } 1 9 7
  refine ⟨(Hi.1 (Or.inl rfl)).1, (Hi.1 (Or.inl rfl)).2.2.1, ?_⟩
  have := (Hq.2.2.2 (by decide) (by decide)).2
  simpa using this
